import Mathlib

/-
Verification of the heart-risk prediction service.

The embedding models the two source files:
- fastapi_part/main.py: the HeartFeatures request model with its pydantic
  field constraints and computed fields, and the predict_heart endpoint.
- frontend/frontend.py: the result-styling check of the client.

Modelling decisions (kept faithful to the Python semantics):
- Request values are Int for integer fields and Rat for float fields; the
  codec never performs float arithmetic, only comparisons and pass-through,
  so Rat is an exact model of the values that matter to the claims.
- pydantic validates the declared field constraints (ge/le ranges and the
  Literal enums for slope and ca) when the request body is parsed, before
  the route handler runs; a violation produces a client-error response
  naming the field.  The label strings (sex_label, cp_label, restecg_label,
  exang_label, thal_label) carry no declared constraint, so any string
  passes this boundary validation.
- computed_field properties are evaluated on attribute access, which
  happens inside the handler body while the input row is built.  A
  ValueError raised there is an uncaught exception in the route handler,
  which the framework turns into a plain server error; it is NOT a
  pydantic validation error.  PredictOutcome.uncaught models this.
- The trained pipeline is opaque: ModelPipeline carries the two operations
  the handler invokes (predict and the class-1 column of predict_proba).
-/

deriving instance DecidableEq for Except

namespace HeartRisk

/-- Python str.lower on the character sequence of the string. -/
def pyLower (s : String) : String := ⟨s.data.map Char.toLower⟩

/-- The request model of main.py (raw input fields of HeartFeatures).
Computed fields are modelled as the functions below, not as stored data,
matching pydantic semantics where they are evaluated on access. -/
structure HeartFeatures where
  age : Int
  sex_label : String
  cp_label : String
  trestbps : ℚ
  chol : ℚ
  fbs_raw : Int
  restecg_label : String
  thalachh : ℚ
  exang_label : String
  oldpeak : ℚ
  slope : Int
  ca : Int
  thal_label : String
deriving Repr, DecidableEq

/-- The sex computed field: lowercases the label, maps male to 1 and
female to 0, raises a ValueError otherwise. -/
def sexMap (sex_label : String) : Except String Int :=
  let label := pyLower sex_label
  if label = "male" then .ok 1
  else if label = "female" then .ok 0
  else .error "Invalid gender label: Must be Male or Female."

/-- The cp_map dictionary of the cp computed field. -/
def cp_map : List (String × Int) :=
  [("Typical angina", 0), ("Atypical angina", 1), ("Non-anginal pain", 2), ("Asymptomatic", 3)]

/-- The cp computed field: exact dictionary lookup, ValueError on no match. -/
def cpMap (cp_label : String) : Except String Int :=
  match cp_map.lookup cp_label with
  | some v => .ok v
  | none => .error ("Invalid CP label: " ++ cp_label ++ ". Check documentation for valid options.")

/-- The fbs computed field: 1 if fbs_raw > 120 else 0. -/
def fbsVal (fbs_raw : Int) : Int :=
  if fbs_raw > 120 then 1 else 0

/-- The ecg_map dictionary of the restecg computed field. -/
def ecg_map : List (String × Int) :=
  [("Normal", 0), ("ST-T wave abnormality", 1), ("Left ventricular hypertrophy", 2)]

/-- The restecg computed field: exact dictionary lookup, ValueError on no match. -/
def restecgMap (restecg_label : String) : Except String Int :=
  match ecg_map.lookup restecg_label with
  | some v => .ok v
  | none => .error ("Invalid RestECG label: " ++ restecg_label ++ ".")

/-- The exang computed field: lowercases the label, yes to 1, no to 0,
ValueError otherwise. -/
def exangMap (exang_label : String) : Except String Int :=
  if pyLower exang_label = "yes" then .ok 1
  else if pyLower exang_label = "no" then .ok 0
  else .error "Invalid Exang label: Must be Yes or No."

/-- The thal_map dictionary of the thal computed field. -/
def thal_map : List (String × Int) :=
  [("Normal", 1), ("Fixed defect", 2), ("Reversible defect", 3)]

/-- The thal computed field: exact dictionary lookup, ValueError on no match. -/
def thalMap (thal_label : String) : Except String Int :=
  match thal_map.lookup thal_label with
  | some v => .ok v
  | none => .error ("Invalid Thalassemia label: " ++ thal_label ++ ".")

/-- A pydantic field error: the offending field and the violated constraint. -/
structure FieldError where
  field : String
  constraint : String
deriving Repr, DecidableEq

/-- Boundary validation of the request body, as pydantic performs it from
the Annotated Field constraints and the Literal types, in field declaration
order.  The label string fields have no declared constraint and are not
checked here.  On success the parsed model carries the same raw values. -/
def validateRequest (r : HeartFeatures) : Except FieldError HeartFeatures :=
  if ¬(25 ≤ r.age ∧ r.age ≤ 90) then .error ⟨"age", "ge=25, le=90"⟩
  else if ¬(80 ≤ r.trestbps ∧ r.trestbps ≤ 250) then .error ⟨"trestbps", "ge=80, le=250"⟩
  else if ¬(100 ≤ r.chol ∧ r.chol ≤ 600) then .error ⟨"chol", "ge=100, le=600"⟩
  else if ¬(60 ≤ r.fbs_raw ∧ r.fbs_raw ≤ 150) then .error ⟨"fbs_raw", "ge=60, le=150"⟩
  else if ¬(60 ≤ r.thalachh ∧ r.thalachh ≤ 220) then .error ⟨"thalachh", "ge=60, le=220"⟩
  else if ¬(0 ≤ r.oldpeak ∧ r.oldpeak ≤ 6.5) then .error ⟨"oldpeak", "ge=0.0, le=6.5"⟩
  else if ¬(r.slope = 0 ∨ r.slope = 1 ∨ r.slope = 2) then .error ⟨"slope", "Literal 0, 1, 2"⟩
  else if ¬(r.ca = 0 ∨ r.ca = 1 ∨ r.ca = 2 ∨ r.ca = 3) then .error ⟨"ca", "Literal 0, 1, 2, 3"⟩
  else .ok r

/-- The column order of the single-row DataFrame built in predict_heart. -/
def FEATURE_ORDER : List String :=
  ["age", "sex", "cp", "trestbps", "chol", "fbs", "restecg", "thalachh",
   "exang", "oldpeak", "slope", "ca", "thal"]

/-- Evaluation of the input_df row of predict_heart: the dict literal reads
the 13 attributes in order, so the computed fields run in the order
sex, cp, restecg, exang, thal; the first ValueError aborts the row. -/
def encodeFeatures (data : HeartFeatures) : Except String (List ℚ) := do
  let sexv ← sexMap data.sex_label
  let cpv ← cpMap data.cp_label
  let restecgv ← restecgMap data.restecg_label
  let exangv ← exangMap data.exang_label
  let thalv ← thalMap data.thal_label
  pure [(data.age : ℚ), (sexv : ℚ), (cpv : ℚ), data.trestbps, data.chol,
        (fbsVal data.fbs_raw : ℚ), (restecgv : ℚ), data.thalachh, (exangv : ℚ),
        data.oldpeak, (data.slope : ℚ), (data.ca : ℚ), (thalv : ℚ)]

/-- The opaque trained pipeline: the two operations the handler invokes.
predict_proba1 is the probability mass assigned to class 1. -/
structure ModelPipeline where
  predict : List ℚ → Int
  predict_proba1 : List ℚ → ℚ

/-- A response body: either the message object of the degraded mode or the
three-field prediction object. -/
inductive ResponseBody where
  | message (msg : String)
  | prediction (predicted_category : Int) (risk_score_probability : ℚ) (risk_level : String)
deriving Repr, DecidableEq

/-- Outcome of a POST to /predict: an explicit JSONResponse, the
framework-produced client error for a failed boundary validation, or an
uncaught exception escaping the handler (a plain server error). -/
inductive PredictOutcome where
  | response (status : Nat) (body : ResponseBody)
  | validationError (e : FieldError)
  | uncaught (msg : String)
deriving Repr, DecidableEq

/-- Round-half-even to an integer, Python round semantics. -/
def roundHalfEven (q : ℚ) : Int :=
  let f : Int := ⌊q⌋
  let r : ℚ := q - f
  if r < 1/2 then f
  else if 1/2 < r then f + 1
  else if f % 2 = 0 then f else f + 1

/-- Python round(x, 4). -/
def round4 (q : ℚ) : ℚ := (roundHalfEven (q * 10000) : ℚ) / 10000

/-- The predict_heart route handler body: model-availability check first,
then the input row (where computed fields can raise), then the two model
operations and the response object. -/
def predict_heart (model_pipeline : Option ModelPipeline) (data : HeartFeatures) : PredictOutcome :=
  match model_pipeline with
  | none => .response 500 (.message "Model not loaded.")
  | some pipeline =>
    match encodeFeatures data with
    | .error msg => .uncaught msg
    | .ok input_df =>
      let prediction := pipeline.predict input_df
      let risk_score := pipeline.predict_proba1 input_df
      .response 200
        (.prediction prediction (round4 risk_score)
          (if prediction = 1 then "High Risk" else "Low Risk"))

/-- A full POST /predict: the framework validates the body against the
declared constraints before the handler runs. -/
def handleRequest (model_pipeline : Option ModelPipeline) (r : HeartFeatures) : PredictOutcome :=
  match validateRequest r with
  | .error e => .validationError e
  | .ok data => predict_heart model_pipeline data

/-- Whether a request satisfies the full declared domain of every field
(the numeric constraints checked at the boundary and the closed label sets
checked by the computed fields). -/
def inDomain (r : HeartFeatures) : Bool :=
  (validateRequest r).isOk && (encodeFeatures r).isOk

/-- Whether an outcome is a client-error response naming a field. -/
def isClientError : PredictOutcome → Bool
  | .validationError _ => true
  | _ => false

/-- Python list-of-chars comparison: pat begins s. -/
def charsLead : List Char → List Char → Bool
  | [], _ => true
  | _ :: _, [] => false
  | a :: as, b :: bs => a == b && charsLead as bs

/-- Python substring search over char lists. -/
def charsContain (pat : List Char) : List Char → Bool
  | [] => charsLead pat []
  | c :: rest => charsLead pat (c :: rest) || charsContain pat rest

/-- The Python expression pat in s for strings: substring containment. -/
def pyIn (pat s : String) : Bool := charsContain pat.toList s.toList

/-- The styling condition of frontend.py: the string-containment check
against the literal High Risk. -/
def highRiskStyling (risk_level : String) : Bool := pyIn "High Risk" risk_level

/-- A pipeline used for concrete runs in witnesses: always predicts
class 0 with probability 0 for class 1. -/
def m0 : ModelPipeline := ⟨fun _ => 0, fun _ => 0⟩

/-- The end-to-end scenario request of the spec. -/
def exampleReq : HeartFeatures :=
  ⟨63, "Male", "Asymptomatic", 145, 233, 150, "Left ventricular hypertrophy",
   150, "No", 2.3, 0, 0, "Fixed defect"⟩

/-- A request whose numeric fields are all in range but whose sex_label is
outside its closed label set. -/
def badLabelReq : HeartFeatures :=
  ⟨63, "Unknown", "Asymptomatic", 145, 233, 150, "Left ventricular hypertrophy",
   150, "No", 2.3, 0, 0, "Fixed defect"⟩

/-- A request with an out-of-range age and every other field valid. -/
def ageTenReq : HeartFeatures :=
  ⟨10, "Male", "Asymptomatic", 145, 233, 150, "Left ventricular hypertrophy",
   150, "No", 2.3, 0, 0, "Fixed defect"⟩

/-- The encoded row of the end-to-end scenario. -/
def v0 : List ℚ := [63, 1, 3, 145, 233, 1, 2, 150, 0, 2.3, 0, 0, 2]

/- Helper lemmas shared by the claim theorems. -/

theorem validateRequest_ok_eq {r f : HeartFeatures} (h : validateRequest r = .ok f) :
    f = r := by
  unfold validateRequest at h
  repeat' split at h
  all_goals simp_all

theorem lookup_val_mem {l : List (String × Int)} {s : String} {v : Int}
    (h : l.lookup s = some v) : v ∈ l.map Prod.snd := by
  induction l with
  | nil => simp [List.lookup] at h
  | cons kv rest ih =>
    obtain ⟨k, b⟩ := kv
    cases hb : (s == k) with
    | true => simp [List.lookup, hb] at h; simp [h]
    | false =>
      rw [List.lookup, hb] at h
      simpa using Or.inr (ih h)

theorem sexMap_ok {s : String} {v : Int} (h : sexMap s = .ok v) : v = 0 ∨ v = 1 := by
  simp only [sexMap] at h
  split at h
  · simp_all
  · split at h <;> simp_all

theorem exangMap_ok {s : String} {v : Int} (h : exangMap s = .ok v) : v = 0 ∨ v = 1 := by
  unfold exangMap at h
  split at h
  · simp_all
  · split at h <;> simp_all

theorem cpMap_ok {s : String} {v : Int} (h : cpMap s = .ok v) :
    v = 0 ∨ v = 1 ∨ v = 2 ∨ v = 3 := by
  unfold cpMap at h
  split at h
  case _ w hl =>
    have := lookup_val_mem hl
    simp [cp_map] at this
    simp_all
  · simp_all

theorem restecgMap_ok {s : String} {v : Int} (h : restecgMap s = .ok v) :
    v = 0 ∨ v = 1 ∨ v = 2 := by
  unfold restecgMap at h
  split at h
  case _ w hl =>
    have := lookup_val_mem hl
    simp [ecg_map] at this
    simp_all
  · simp_all

theorem thalMap_ok {s : String} {v : Int} (h : thalMap s = .ok v) :
    v = 1 ∨ v = 2 ∨ v = 3 := by
  unfold thalMap at h
  split at h
  case _ w hl =>
    have := lookup_val_mem hl
    simp [thal_map] at this
    simp_all
  · simp_all

theorem encodeFeatures_ok_inv {f : HeartFeatures} {v : List ℚ}
    (h : encodeFeatures f = .ok v) :
    ∃ sv cv rv ev tv : Int,
      sexMap f.sex_label = .ok sv ∧ cpMap f.cp_label = .ok cv ∧
      restecgMap f.restecg_label = .ok rv ∧ exangMap f.exang_label = .ok ev ∧
      thalMap f.thal_label = .ok tv ∧
      v = [(f.age : ℚ), (sv : ℚ), (cv : ℚ), f.trestbps, f.chol,
           (fbsVal f.fbs_raw : ℚ), (rv : ℚ), f.thalachh, (ev : ℚ),
           f.oldpeak, (f.slope : ℚ), (f.ca : ℚ), (tv : ℚ)] := by
  cases hs : sexMap f.sex_label with
  | error m => simp [encodeFeatures, hs, Bind.bind, Except.bind] at h
  | ok sv =>
  cases hc : cpMap f.cp_label with
  | error m => simp [encodeFeatures, hs, hc, Bind.bind, Except.bind] at h
  | ok cv =>
  cases hr : restecgMap f.restecg_label with
  | error m => simp [encodeFeatures, hs, hc, hr, Bind.bind, Except.bind] at h
  | ok rv =>
  cases he : exangMap f.exang_label with
  | error m => simp [encodeFeatures, hs, hc, hr, he, Bind.bind, Except.bind] at h
  | ok ev =>
  cases ht : thalMap f.thal_label with
  | error m => simp [encodeFeatures, hs, hc, hr, he, ht, Bind.bind, Except.bind] at h
  | ok tv =>
    refine ⟨sv, cv, rv, ev, tv, rfl, rfl, rfl, rfl, rfl, ?_⟩
    simp [encodeFeatures, hs, hc, hr, he, ht,
          Bind.bind, Except.bind, Pure.pure, Except.pure] at h
    exact h.symm

/- Claim theorems. -/

/-- C1 counterexample: a request whose sex_label is outside its closed set
(every numeric field in range), sent while a model is loaded, does not get a
client-error response: the ValueError of the sex computed field escapes the
handler as an uncaught exception. -/
theorem invalid_label_not_client_error :
    inDomain badLabelReq = false ∧
    isClientError (handleRequest (some m0) badLabelReq) = false ∧
    handleRequest (some m0) badLabelReq =
      .uncaught "Invalid gender label: Must be Male or Female." := by
  have hv : validateRequest badLabelReq = .ok badLabelReq := by
    norm_num [validateRequest, badLabelReq]
  have hs : sexMap "Unknown" = .error "Invalid gender label: Must be Male or Female." := by
    decide
  have henc : encodeFeatures badLabelReq =
      .error "Invalid gender label: Must be Male or Female." := by
    simp [encodeFeatures, badLabelReq, hs, Bind.bind, Except.bind]
  refine ⟨?_, ?_, ?_⟩
  · simp [inDomain, hv, henc, Except.isOk, Except.toBool]
  · simp [isClientError, handleRequest, hv, predict_heart, henc]
  · simp [handleRequest, hv, predict_heart, henc]

/-- C1 (amended): a request with a numeric or enum field outside its
declared range is rejected by the boundary validation with a client error
naming the field and constraint, before any mapping executes, and the
outcome does not depend on the model, so the model is never invoked. -/
theorem boundary_validation_rejects (m m2 : Option ModelPipeline)
    (r : HeartFeatures) (e : FieldError) (h : validateRequest r = .error e) :
    handleRequest m r = .validationError e ∧ handleRequest m r = handleRequest m2 r := by
  simp [handleRequest, h]

/-- C1 witness: the request with age 10 is rejected as such. -/
theorem boundary_validation_rejects_witness :
    validateRequest ageTenReq = .error ⟨"age", "ge=25, le=90"⟩ ∧
    (handleRequest (some m0) ageTenReq = .validationError ⟨"age", "ge=25, le=90"⟩ ∧
     handleRequest (some m0) ageTenReq = handleRequest none ageTenReq) := by
  have hv : validateRequest ageTenReq = .error ⟨"age", "ge=25, le=90"⟩ := by
    norm_num [validateRequest, ageTenReq]
  exact ⟨hv, boundary_validation_rejects (some m0) none ageTenReq _ hv⟩

/-- C2: for every request whose five label fields map successfully, the
handler builds the single row with exactly the 13 features in the fixed
column order age, sex, cp, trestbps, chol, fbs, restecg, thalachh, exang,
oldpeak, slope, ca, thal. -/
theorem feature_row_order (f : HeartFeatures) (sv cv rv ev tv : Int)
    (hs : sexMap f.sex_label = .ok sv) (hc : cpMap f.cp_label = .ok cv)
    (hr : restecgMap f.restecg_label = .ok rv) (he : exangMap f.exang_label = .ok ev)
    (ht : thalMap f.thal_label = .ok tv) :
    FEATURE_ORDER = ["age", "sex", "cp", "trestbps", "chol", "fbs", "restecg",
                     "thalachh", "exang", "oldpeak", "slope", "ca", "thal"] ∧
    encodeFeatures f =
      .ok [(f.age : ℚ), (sv : ℚ), (cv : ℚ), f.trestbps, f.chol,
           (fbsVal f.fbs_raw : ℚ), (rv : ℚ), f.thalachh, (ev : ℚ),
           f.oldpeak, (f.slope : ℚ), (f.ca : ℚ), (tv : ℚ)] := by
  refine ⟨rfl, ?_⟩
  simp [encodeFeatures, hs, hc, hr, he, ht,
        Bind.bind, Except.bind, Pure.pure, Except.pure]

/-- C2 witness: the end-to-end scenario input encodes to the vector
63, 1, 3, 145, 233, 1, 2, 150, 0, 2.3, 0, 0, 2. -/
theorem feature_row_order_witness :
    encodeFeatures exampleReq = .ok [63, 1, 3, 145, 233, 1, 2, 150, 0, 2.3, 0, 0, 2] := by
  have h := (feature_row_order exampleReq 1 3 2 0 2
    (by decide) (by decide) (by decide) (by decide) (by decide)).2
  rw [h]
  norm_num [exampleReq, fbsVal]

/-- C3 counterexample: when no model is loaded, a POST /predict whose body
fails the boundary validation (age 10) returns the client validation error,
not the fixed 500 response, so not every POST /predict returns 500. -/
theorem unavailable_model_invalid_body :
    handleRequest none ageTenReq = .validationError ⟨"age", "ge=25, le=90"⟩ ∧
    handleRequest none ageTenReq ≠ .response 500 (.message "Model not loaded.") := by
  have hv : validateRequest ageTenReq = .error ⟨"age", "ge=25, le=90"⟩ := by
    norm_num [validateRequest, ageTenReq]
  refine ⟨by simp [handleRequest, hv], by simp [handleRequest, hv]⟩

/-- C3 (amended): when no model is loaded, every POST /predict whose body
passes the boundary validation returns exactly the fixed 500 response with
message Model not loaded., with no prediction computed and no exception. -/
theorem model_not_loaded_response (r f : HeartFeatures)
    (h : validateRequest r = .ok f) :
    handleRequest none r = .response 500 (.message "Model not loaded.") := by
  simp [handleRequest, h, predict_heart]

/-- C3 witness: the valid end-to-end request gets the fixed 500 response
when no model is loaded. -/
theorem model_not_loaded_response_witness :
    validateRequest exampleReq = .ok exampleReq ∧
    handleRequest none exampleReq = .response 500 (.message "Model not loaded.") := by
  have hv : validateRequest exampleReq = .ok exampleReq := by
    norm_num [validateRequest, exampleReq]
  exact ⟨hv, model_not_loaded_response exampleReq exampleReq hv⟩

/-- C4: for every in-range fbs_raw the derived fbs flag is 1 exactly when
fbs_raw exceeds 120 and 0 exactly when it does not; at the boundary,
120 gives 0 and 121 gives 1. -/
theorem fbs_threshold (n : Int) (h1 : 60 ≤ n) (h2 : n ≤ 150) :
    (fbsVal n = 1 ↔ 120 < n) ∧ (fbsVal n = 0 ↔ n ≤ 120) ∧
    fbsVal 120 = 0 ∧ fbsVal 121 = 1 := by
  unfold fbsVal
  refine ⟨?_, ?_, by norm_num, by norm_num⟩ <;> split <;> simp_all

/-- C4 witness: instantiated at fbs_raw 121. -/
theorem fbs_threshold_witness :
    (60 : Int) ≤ 121 ∧ (121 : Int) ≤ 150 ∧
    ((fbsVal 121 = 1 ↔ (120 : Int) < 121) ∧ (fbsVal 121 = 0 ↔ (121 : Int) ≤ 120) ∧
     fbsVal 120 = 0 ∧ fbsVal 121 = 1) :=
  ⟨by norm_num, by norm_num, fbs_threshold 121 (by norm_num) (by norm_num)⟩

/-- C5: the sex computed field maps every case variant of male to 1 and of
female to 0, and raises the invalid-gender ValueError on every other
string, in particular on Unknown. -/
theorem sex_label_mapping (s : String) :
    (pyLower s = "male" → sexMap s = .ok 1) ∧
    (pyLower s = "female" → sexMap s = .ok 0) ∧
    (pyLower s ≠ "male" → pyLower s ≠ "female" →
      sexMap s = .error "Invalid gender label: Must be Male or Female.") ∧
    sexMap "Unknown" = .error "Invalid gender label: Must be Male or Female." := by
  refine ⟨fun h => ?_, fun h => ?_, fun h1 h2 => ?_, by decide⟩ <;>
    simp [sexMap, *]

/-- C5 witness: instantiated at Male and FEMALE. -/
theorem sex_label_mapping_witness :
    sexMap "Male" = .ok 1 ∧ sexMap "FEMALE" = .ok 0 :=
  ⟨(sex_label_mapping "Male").1 (by decide),
   (sex_label_mapping "FEMALE").2.1 (by decide)⟩

/-- C6: the thal computed field maps exactly Normal to 1, Fixed defect to 2
and Reversible defect to 3, and raises the invalid-thalassemia ValueError
on every other string. -/
theorem thal_mapping :
    thalMap "Normal" = .ok 1 ∧ thalMap "Fixed defect" = .ok 2 ∧
    thalMap "Reversible defect" = .ok 3 ∧
    ∀ s : String, s ≠ "Normal" → s ≠ "Fixed defect" → s ≠ "Reversible defect" →
      thalMap s = .error ("Invalid Thalassemia label: " ++ s ++ ".") := by
  refine ⟨by decide, by decide, by decide, fun s h1 h2 h3 => ?_⟩
  have e1 : (s == "Normal") = false := beq_eq_false_iff_ne.mpr h1
  have e2 : (s == "Fixed defect") = false := beq_eq_false_iff_ne.mpr h2
  have e3 : (s == "Reversible defect") = false := beq_eq_false_iff_ne.mpr h3
  simp [thalMap, thal_map, List.lookup, e1, e2, e3]

/-- C6 witness: instantiated at the string Unknown. -/
theorem thal_mapping_witness :
    thalMap "Unknown" = .error ("Invalid Thalassemia label: " ++ "Unknown" ++ ".") :=
  thal_mapping.2.2.2 "Unknown" (by decide) (by decide) (by decide)

/-- C7: for every request passing boundary validation whose encoding
succeeds, the encoded row carries the pass-through fields age, trestbps,
chol, thalachh, oldpeak, slope, ca unchanged in their positions, and every
mapped value lies in its documented post-mapping domain. -/
theorem encoded_domains (r f : HeartFeatures) (v : List ℚ)
    (hval : validateRequest r = .ok f) (henc : encodeFeatures f = .ok v) :
    ∃ sv cv rv ev tv : Int,
      v = [(r.age : ℚ), (sv : ℚ), (cv : ℚ), r.trestbps, r.chol,
           (fbsVal r.fbs_raw : ℚ), (rv : ℚ), r.thalachh, (ev : ℚ),
           r.oldpeak, (r.slope : ℚ), (r.ca : ℚ), (tv : ℚ)] ∧
      (sv = 0 ∨ sv = 1) ∧ (cv = 0 ∨ cv = 1 ∨ cv = 2 ∨ cv = 3) ∧
      (fbsVal r.fbs_raw = 0 ∨ fbsVal r.fbs_raw = 1) ∧
      (rv = 0 ∨ rv = 1 ∨ rv = 2) ∧ (ev = 0 ∨ ev = 1) ∧
      (tv = 1 ∨ tv = 2 ∨ tv = 3) := by
  obtain rfl := validateRequest_ok_eq hval
  obtain ⟨sv, cv, rv, ev, tv, hs, hc, hr, he, ht, hv⟩ := encodeFeatures_ok_inv henc
  refine ⟨sv, cv, rv, ev, tv, hv, sexMap_ok hs, cpMap_ok hc, ?_,
          restecgMap_ok hr, exangMap_ok he, thalMap_ok ht⟩
  unfold fbsVal
  split <;> simp

/-- C7 witness: instantiated at the end-to-end scenario request. -/
theorem encoded_domains_witness :
    validateRequest exampleReq = .ok exampleReq ∧
    encodeFeatures exampleReq = .ok [63, 1, 3, 145, 233, 1, 2, 150, 0, 2.3, 0, 0, 2] ∧
    ∃ sv cv rv ev tv : Int,
      [(63 : ℚ), 1, 3, 145, 233, 1, 2, 150, 0, 2.3, 0, 0, 2] =
        [(exampleReq.age : ℚ), (sv : ℚ), (cv : ℚ), exampleReq.trestbps, exampleReq.chol,
         (fbsVal exampleReq.fbs_raw : ℚ), (rv : ℚ), exampleReq.thalachh, (ev : ℚ),
         exampleReq.oldpeak, (exampleReq.slope : ℚ), (exampleReq.ca : ℚ), (tv : ℚ)] ∧
      (sv = 0 ∨ sv = 1) ∧ (cv = 0 ∨ cv = 1 ∨ cv = 2 ∨ cv = 3) ∧
      (fbsVal exampleReq.fbs_raw = 0 ∨ fbsVal exampleReq.fbs_raw = 1) ∧
      (rv = 0 ∨ rv = 1 ∨ rv = 2) ∧ (ev = 0 ∨ ev = 1) ∧
      (tv = 1 ∨ tv = 2 ∨ tv = 3) := by
  have hv : validateRequest exampleReq = .ok exampleReq := by
    norm_num [validateRequest, exampleReq]
  have h1 : sexMap "Male" = .ok 1 := by decide
  have h2 : cpMap "Asymptomatic" = .ok 3 := by decide
  have h3 : restecgMap "Left ventricular hypertrophy" = .ok 2 := by decide
  have h4 : exangMap "No" = .ok 0 := by decide
  have h5 : thalMap "Fixed defect" = .ok 2 := by decide
  have henc : encodeFeatures exampleReq =
      .ok [63, 1, 3, 145, 233, 1, 2, 150, 0, 2.3, 0, 0, 2] := by
    simp [encodeFeatures, exampleReq, h1, h2, h3, h4, h5, fbsVal,
          Bind.bind, Except.bind, Pure.pure, Except.pure]
  exact ⟨hv, henc, encoded_domains exampleReq exampleReq _ hv henc⟩

/-- C8: on a successful prediction the handler returns status 200 with
predicted_category the model class, risk_score_probability the class-1
probability rounded to 4 decimal digits, and risk_level equal to High Risk
exactly when the predicted class is 1 and Low Risk otherwise. -/
theorem success_response_shape (m : ModelPipeline) (f : HeartFeatures) (v : List ℚ)
    (h : encodeFeatures f = .ok v) :
    predict_heart (some m) f =
      .response 200 (.prediction (m.predict v) (round4 (m.predict_proba1 v))
        (if m.predict v = 1 then "High Risk" else "Low Risk")) ∧
    ((if m.predict v = 1 then "High Risk" else "Low Risk") = "High Risk" ↔
      m.predict v = 1) := by
  refine ⟨by simp [predict_heart, h], ?_⟩
  split <;> simp_all

/-- C8 witness: instantiated at the end-to-end scenario request and the
constant class-0 pipeline. -/
theorem success_response_shape_witness :
    encodeFeatures exampleReq = .ok v0 ∧
    (predict_heart (some m0) exampleReq =
      .response 200 (.prediction (m0.predict v0) (round4 (m0.predict_proba1 v0))
        (if m0.predict v0 = 1 then "High Risk" else "Low Risk")) ∧
     ((if m0.predict v0 = 1 then "High Risk" else "Low Risk") = "High Risk" ↔
       m0.predict v0 = 1)) := by
  have h1 : sexMap "Male" = .ok 1 := by decide
  have h2 : cpMap "Asymptomatic" = .ok 3 := by decide
  have h3 : restecgMap "Left ventricular hypertrophy" = .ok 2 := by decide
  have h4 : exangMap "No" = .ok 0 := by decide
  have h5 : thalMap "Fixed defect" = .ok 2 := by decide
  have henc : encodeFeatures exampleReq = .ok v0 := by
    simp [encodeFeatures, exampleReq, v0, h1, h2, h3, h4, h5, fbsVal,
          Bind.bind, Except.bind, Pure.pure, Except.pure]
  exact ⟨henc, success_response_shape m0 exampleReq v0 henc⟩

/-- C9: every risk_level the server can produce in a success response makes
the string-containment styling check of the client agree with the equality
check against High Risk. -/
theorem styling_check_equiv (m : ModelPipeline) (f : HeartFeatures) (st : Nat)
    (c : Int) (p : ℚ) (lvl : String)
    (h : predict_heart (some m) f = .response st (.prediction c p lvl)) :
    highRiskStyling lvl = (lvl == "High Risk") := by
  cases he : encodeFeatures f with
  | error msg => simp [predict_heart, he] at h
  | ok v =>
    simp [predict_heart, he] at h
    obtain ⟨-, -, -, hlvl⟩ := h
    subst hlvl
    split <;> decide

/-- C9 witness: the Low Risk response of the constant class-0 pipeline. -/
theorem styling_check_equiv_witness :
    predict_heart (some m0) exampleReq =
      .response 200 (.prediction 0 (round4 0) "Low Risk") ∧
    highRiskStyling "Low Risk" = ("Low Risk" == "High Risk") := by
  have h1 : sexMap "Male" = .ok 1 := by decide
  have h2 : cpMap "Asymptomatic" = .ok 3 := by decide
  have h3 : restecgMap "Left ventricular hypertrophy" = .ok 2 := by decide
  have h4 : exangMap "No" = .ok 0 := by decide
  have h5 : thalMap "Fixed defect" = .ok 2 := by decide
  have henc : encodeFeatures exampleReq = .ok v0 := by
    simp [encodeFeatures, exampleReq, v0, h1, h2, h3, h4, h5, fbsVal,
          Bind.bind, Except.bind, Pure.pure, Except.pure]
  have hrun : predict_heart (some m0) exampleReq =
      .response 200 (.prediction 0 (round4 0) "Low Risk") := by
    simp [predict_heart, henc, m0]
  exact ⟨hrun, styling_check_equiv m0 exampleReq 200 0 (round4 0) "Low Risk" hrun⟩

/-- C10: a request that passes boundary validation but whose labels fail to
map is answered with the fixed 500 Model not loaded response when no model
is loaded, because the model-availability check runs before any computed
field is read; with a loaded model the same request instead raises the
mapping ValueError, so no validation error is ever produced for it. -/
theorem model_check_masks_label_validation (r : HeartFeatures) (e : String)
    (hval : validateRequest r = .ok r) (henc : encodeFeatures r = .error e) :
    handleRequest none r = .response 500 (.message "Model not loaded.") ∧
    ∀ m : ModelPipeline, handleRequest (some m) r = .uncaught e := by
  constructor
  · simp [handleRequest, hval, predict_heart]
  · intro m
    simp [handleRequest, hval, predict_heart, henc]

/-- C10 witness: instantiated at the in-range request with sex_label
Unknown. -/
theorem model_check_masks_label_validation_witness :
    validateRequest badLabelReq = .ok badLabelReq ∧
    encodeFeatures badLabelReq =
      .error "Invalid gender label: Must be Male or Female." ∧
    (handleRequest none badLabelReq = .response 500 (.message "Model not loaded.") ∧
     ∀ m : ModelPipeline, handleRequest (some m) badLabelReq =
       .uncaught "Invalid gender label: Must be Male or Female.") := by
  have hv : validateRequest badLabelReq = .ok badLabelReq := by
    norm_num [validateRequest, badLabelReq]
  have hs : sexMap "Unknown" = .error "Invalid gender label: Must be Male or Female." := by
    decide
  have henc : encodeFeatures badLabelReq =
      .error "Invalid gender label: Must be Male or Female." := by
    simp [encodeFeatures, badLabelReq, hs, Bind.bind, Except.bind]
  exact ⟨hv, henc, model_check_masks_label_validation badLabelReq _ hv henc⟩

end HeartRisk
